import Mathlib

/-!
Verification of the misir-brimstone semantic assignment and analytics core.

Numeric values that the Python source holds in IEEE floats are embedded as
exact rationals (`ℚ`) where the code is pure arithmetic, and as reals (`ℝ`)
where the code takes Euclidean norms (`np.linalg.norm`), since square roots
are irrational in general.  Each definition is a direct translation of the
named Python function; file and line references are given in doc comments.
-/

namespace Misir

/-! ## Configuration defaults

`backend/core/config.py` (`Settings`) and `backend/core/config_cache.py`
(`SystemConfigCache.DEFAULTS`). -/

/-- Settings.DRIFT_THRESHOLD, config.py line 44: minimum drift to trigger logging. -/
def DRIFT_THRESHOLD : ℚ := 5 / 100

/-- Settings.CONFIDENCE_LEARNING_RATE, config.py line 45. -/
def CONFIDENCE_LEARNING_RATE : ℚ := 5 / 100

/-- Settings.MARKER_DECAY_RATE, config.py line 46. -/
def MARKER_DECAY_RATE : ℚ := 1 / 10

/-- Settings.MARKER_MIN_WEIGHT, config.py line 47. -/
def MARKER_MIN_WEIGHT : ℚ := 1 / 100

/-! ## Subspace analytics service (drift threshold and confidence)

`backend/infrastructure/services/subspace_analytics.py`. -/

/-- SubspaceAnalyticsService.__init__ (subspace_analytics.py lines 25-34).
The Python body runs two assignments in sequence:
line 33 sets the field to the argument when given, else config.DRIFT_THRESHOLD;
line 34 then reassigns the field to the raw argument, overwriting line 33.
The `none` case models passing no argument (Python default None). -/
def analytics_drift_threshold (drift_threshold_arg : Option ℚ) : Option ℚ :=
  let line33 := some (drift_threshold_arg.getD DRIFT_THRESHOLD)
  let line34 := drift_threshold_arg
  let _ := line33
  line34

/-- SubspaceAnalyticsService.should_log_drift (subspace_analytics.py lines 73-83):
returns `drift_magnitude >= self.drift_threshold`.  When the stored threshold is
None, Python raises TypeError on the comparison; that outcome is modelled as
`none` (no boolean decision is produced). -/
def should_log_drift (drift_threshold : Option ℚ) (drift_magnitude : ℚ) : Option Bool :=
  match drift_threshold with
  | none => none
  | some t => some (decide (t ≤ drift_magnitude))

/-- SubspaceAnalyticsService.update_confidence (subspace_analytics.py lines 172-197):
new_confidence = (1 - learning_rate) * current + learning_rate * coherence,
then max(0.0, min(1.0, new_confidence)). -/
def update_confidence (current_confidence batch_coherence learning_rate : ℚ) : ℚ :=
  max 0 (min 1 ((1 - learning_rate) * current_confidence + learning_rate * batch_coherence))

/-! ## Marker weight decay

`backend/infrastructure/repositories/subspace_repo.py`,
`SubspaceRepository.decay_marker_weights` (lines 641-701). -/

/-- One application of decay to a single (subspace, marker) link weight.
The loop body computes new_weight = max(current * (1 - decay_rate), min_weight)
and issues the DB update only when abs(new_weight - current) > 0.0001; otherwise
the stored weight is left unchanged. -/
def decay_marker_weight (decay_rate min_weight current_weight : ℚ) : ℚ :=
  let new_weight := max (current_weight * (1 - decay_rate)) min_weight
  if |new_weight - current_weight| > 1 / 10000 then new_weight else current_weight

/-! ## Suspicious reading-depth monitor

`backend/application/handlers/capture_handler.py`,
`CaptureHandler._log_if_reading_depth_suspicious` (lines 130-154), with the
constant defaults from `SystemConfigCache.DEFAULTS.reading_depth_constants`
(config key max_ratio is named ratio_max here). -/

/-- Default avg_wpm from reading_depth_constants. -/
def avg_wpm_default : ℚ := 200

/-- Default time_weight from reading_depth_constants. -/
def time_weight_default : ℚ := 6 / 10

/-- Default scroll_weight from reading_depth_constants. -/
def scroll_weight_default : ℚ := 4 / 10

/-- Default max_ratio from reading_depth_constants. -/
def ratio_max_default : ℚ := 3 / 2

/-- Expected reading depth as the handler computes it (lines 144-146):
expected_time_ms = word_count * 60000 / avg_wpm;
time_ratio = min(max_ratio, dwell_time_ms / expected_time_ms);
expected_depth = time_ratio * time_weight + scroll_depth * scroll_weight.
Note the clamp is applied to the raw time ratio, before the weighting. -/
def expected_reading_depth (word_count dwell_time_ms scroll_depth : ℚ) : ℚ :=
  let expected_time_ms := word_count * 60000 / avg_wpm_default
  let time_ratio := min ratio_max_default (dwell_time_ms / expected_time_ms)
  time_ratio * time_weight_default + scroll_depth * scroll_weight_default

/-- Whether _log_if_reading_depth_suspicious emits its warning (lines 143-154):
only when word_count > 0 and dwell_time_ms > 0, and then exactly when
abs(expected_depth - reading_depth) > 0.20.  The function only logs; it never
rejects the capture. -/
def logs_reading_depth_warning (word_count dwell_time_ms scroll_depth reading_depth : ℚ) :
    Bool :=
  if 0 < word_count ∧ 0 < dwell_time_ms then
    decide (|expected_reading_depth word_count dwell_time_ms scroll_depth - reading_depth|
      > 20 / 100)
  else false

/-- Modelled from the spec (section 4.5, suspicious-data monitor), for comparison
with the source formula: the spec places the time weight inside the clamp,
r-hat = clamp(time_weight * (dwell_ms / expected_ms), 0, max_ratio)
        + scroll_weight * scroll_depth. -/
def spec_expected_reading_depth (word_count dwell_time_ms scroll_depth : ℚ) : ℚ :=
  let expected_time_ms := word_count * 60000 / avg_wpm_default
  max 0 (min ratio_max_default (time_weight_default * (dwell_time_ms / expected_time_ms)))
    + scroll_weight_default * scroll_depth

/-! ## Legacy repair pass centroid computation

`backend/interfaces/api/capture.py`: `_mean_embedding` (lines 111-127) and the
persistence step of `_repair_embeddings_for_space` (lines 234-322), which
writes the value returned by `_mean_embedding` to `centroid_embedding`
unchanged. -/

/-- Elementwise accumulation step of the _mean_embedding loop: the accumulator
entry at each index gains the corresponding entry of the vector (the source
loop only runs over vectors whose length equals the accumulator length). -/
def addVec (accumulator vec : List ℚ) : List ℚ :=
  List.zipWith (fun x y => x + y) accumulator vec

/-- Direct translation of _mean_embedding (capture.py lines 111-127): returns
None on an empty list or zero-dimensional first vector, otherwise sums the
vectors that match the first vector in length and divides by their count. -/
def mean_embedding (vectors : List (List ℚ)) : Option (List ℚ) :=
  match vectors with
  | [] => none
  | v :: vs =>
    if v.length = 0 then none
    else
      let valid := (v :: vs).filter (fun w => w.length = v.length)
      let accumulator := valid.foldl addVec (List.replicate v.length 0)
      if valid.length = 0 then none
      else some (accumulator.map (fun value => value / (valid.length : ℚ)))

/-- The centroid value that _repair_embeddings_for_space persists for a subspace
whose marker embeddings are the given vectors (capture.py lines 313-322): it is
exactly the _mean_embedding output, with no renormalization step between the
mean and the database update. -/
def repair_pass_persisted_centroid (vectors : List (List ℚ)) : Option (List ℚ) :=
  mean_embedding vectors

/-- Squared L2 norm of a rational vector; a vector is unit-L2 exactly when its
squared norm is 1. -/
def normSq (v : List ℚ) : ℚ := (v.map (fun x => x * x)).sum

/-! ## Ingestion normalization and command validation

`backend/infrastructure/repositories/artifact_repo.py` lines 37-60 and
`backend/domain/commands/capture.py`, `CaptureArtifactCommand.__post_init__`
(lines 51-66). -/

/-- Model of the Python expression (s or "").strip().lower() used by both
normalizers: drop whitespace from both ends, then lowercase every character. -/
def pyStripLower (s : String) : String :=
  String.mk ((((s.data.dropWhile Char.isWhitespace).reverse.dropWhile
    Char.isWhitespace).reverse).map Char.toLower)

/-- Translation of _normalize_engagement_level (artifact_repo.py lines 37-47):
strip and lowercase, keep members of the current enum, map the legacy aliases,
and send everything else to latent. -/
def normalize_engagement_level (level : String) : String :=
  let value := pyStripLower level
  if value = "latent" ∨ value = "discovered" ∨ value = "engaged" ∨ value = "saturated" then
    value
  else if value = "ambient" then "latent"
  else if value = "active" then "engaged"
  else if value = "committed" then "saturated"
  else "latent"

/-- Translation of _normalize_content_source (artifact_repo.py lines 50-60):
strip and lowercase, keep members of the current enum, map the legacy aliases,
and send everything else to web. -/
def normalize_content_source (source : String) : String :=
  let value := pyStripLower source
  if value = "web" ∨ value = "pdf" ∨ value = "video" ∨ value = "chat" ∨
      value = "note" ∨ value = "other" then
    value
  else if value = "ai" then "chat"
  else if value = "document" then "pdf"
  else if value = "ebook" then "pdf"
  else "web"

/-- CaptureArtifactCommand (domain/commands/capture.py lines 15-49).  Python
datetimes are modelled as naturals and the float fields as rationals. -/
structure CaptureArtifactCommand where
  user_id : String
  space_id : ℤ
  url : String
  embedding : List ℚ
  reading_depth : ℚ
  scroll_depth : ℚ
  dwell_time_ms : ℤ
  word_count : ℤ
  engagement_level : String
  content_source : String
  subspace_id : Option ℤ
  session_id : Option ℤ
  title : Option String
  content : Option String
  signal_magnitude : ℚ
  signal_type : String
  matched_marker_ids : List ℤ
  captured_at : Option ℕ
  margin : Option ℚ
  updates_centroid : Bool

/-- CaptureArtifactCommand.__post_init__ (capture.py lines 51-66): the checks
run in source order and raise ValueError on the first failure; engagement_level
and content_source are never inspected. -/
def post_init_check (cmd : CaptureArtifactCommand) : Except String Unit :=
  if cmd.user_id = "" then Except.error "user_id is required"
  else if cmd.url = "" then Except.error "url is required"
  else if cmd.embedding = [] then Except.error "embedding is required"
  else if ¬ (0 ≤ cmd.scroll_depth ∧ cmd.scroll_depth ≤ 1) then
    Except.error "scroll_depth must be 0-1"
  else if ¬ (0 ≤ cmd.reading_depth ∧ cmd.reading_depth ≤ 3 / 2) then
    Except.error "reading_depth must be 0-1.5"
  else if cmd.dwell_time_ms < 0 then Except.error "dwell_time_ms must be non-negative"
  else if cmd.word_count < 0 then Except.error "word_count must be non-negative"
  else Except.ok ()

/-! ## Space alerts: the low_margin rule

`backend/interfaces/api/analytics.py`, `get_space_alerts` (lines 689-734).
The artifact query filters by space_id only — unlike every other query in the
same endpoint it carries no user_id filter — orders by created_at descending,
takes 5 rows, and collects the numeric margins of their joined signals. -/

/-- A signal row as the alerts query sees it: only its (possibly null) margin. -/
structure SignalRow where
  margin : Option ℚ
deriving DecidableEq

/-- An artifact row as stored: owner, space, creation order key, and its
joined signal rows. -/
structure ArtifactRow where
  user_id : String
  space_id : ℕ
  created_at : ℕ
  signals : List SignalRow
deriving DecidableEq

/-- Ordering used by .order(created_at, desc=True): later rows first. -/
def createdDesc (a b : ArtifactRow) : Prop := b.created_at ≤ a.created_at

instance : DecidableRel createdDesc := fun a b => Nat.decLe b.created_at a.created_at

/-- The margins collected from one artifact row (analytics.py lines 711-722):
every numeric margin of its signal rows, in order. -/
def signalMargins (a : ArtifactRow) : List ℚ := a.signals.filterMap (fun s => s.margin)

/-- Whether get_space_alerts emits the low_margin alert (analytics.py lines
702-731): take the 5 most recent artifacts with the given space_id — with no
user_id filter — flatten their signal margins, and alert when the margins are
nonempty with mean below 0.3. -/
def low_margin_alert (artifacts : List ArtifactRow) (space_id : ℕ) : Bool :=
  let recent := (List.insertionSort createdDesc
    (artifacts.filter (fun a => a.space_id = space_id))).take 5
  let margins := recent.foldl (fun acc a => acc ++ signalMargins a) []
  decide (margins ≠ [] ∧ margins.sum / (margins.length : ℚ) < 3 / 10)

/-! ## Margin service and drift calculation over real vectors

`backend/infrastructure/services/margin_service.py` and
`subspace_analytics.py`.  Vector arithmetic uses ℝ because np.linalg.norm
takes a square root. -/

/-- np.dot of two equally long vectors: the sum of pairwise products. -/
noncomputable def dotp (a b : List ℝ) : ℝ := ((a.zip b).map (fun p => p.1 * p.2)).sum

/-- np.linalg.norm: the square root of the sum of squares. -/
noncomputable def norm2 (v : List ℝ) : ℝ := Real.sqrt ((v.map (fun x => x * x)).sum)

/-- Cosine distance as computed in the fallback loop (margin_service.py lines
195-200): distance = 1 - dot(signal, centroid) / (norm(signal) * norm(centroid)). -/
noncomputable def cosineDistance (signal centroid : List ℝ) : ℝ :=
  1 - dotp signal centroid / (norm2 signal * norm2 centroid)

/-- MarginResult (margin_service.py lines 21-33). -/
structure MarginResult where
  nearest_subspace_id : Option ℕ
  nearest_distance : ℝ
  second_distance : ℝ
  margin : ℝ
  updates_centroid : Bool

/-- Comparison key of distances.sort(key=lambda x: x[1]) (line 203). -/
def distLE (a b : ℕ × ℝ) : Prop := a.2 ≤ b.2

noncomputable instance : DecidableRel distLE :=
  fun a b => inferInstanceAs (Decidable (a.2 ≤ b.2))

instance : IsTotal (ℕ × ℝ) distLE := ⟨fun a b => le_total a.2 b.2⟩

instance : IsTrans (ℕ × ℝ) distLE := ⟨fun _ _ _ h1 h2 => le_trans h1 h2⟩

/-- Default of config_cache.get(assignment_margin_threshold, 0.05) used by
AssignmentMarginService.get_threshold (margin_service.py lines 70-72). -/
noncomputable def assignment_margin_threshold_default : ℝ := 5 / 100

/-- AssignmentMarginService._calculate_margin_fallback (margin_service.py lines
143-215), given the rows the subspace query returns for the (user, space) —
only subspaces whose centroid_embedding is non-null, as pairs of id and
centroid.  Zero rows: bootstrap result.  One row: nearest_distance is the
0.0 placeholder.  Otherwise distances to all centroids are computed, sorted
ascending (Python list.sort is stable, as is insertionSort), and
margin = d2 - d1 gates the centroid update at the threshold. -/
noncomputable def calculate_margin_fallback (signal_vector : List ℝ)
    (subspaces : List (ℕ × List ℝ)) (threshold : ℝ) : MarginResult :=
  match subspaces with
  | [] => ⟨none, 1, 1, 1, true⟩
  | [s] => ⟨some s.1, 0, 1, 1, true⟩
  | s1 :: s2 :: rest =>
    let distances := (s1 :: s2 :: rest).map
      (fun s => (s.1, cosineDistance signal_vector s.2))
    let sorted := List.insertionSort distLE distances
    let d1 := sorted.headI.2
    let d2 := sorted.tail.headI.2
    ⟨some sorted.headI.1, d1, d2, d2 - d1, decide (threshold ≤ d2 - d1)⟩

/-- SubspaceAnalyticsService.calculate_drift (subspace_analytics.py lines
36-71): similarity = dot / (norm * norm); 0 when the norm product is zero;
drift = 1 - similarity guarded only from below by max(0.0, drift). -/
noncomputable def calculate_drift (previous_centroid new_centroid : List ℝ) : ℝ :=
  let dot_product := dotp previous_centroid new_centroid
  let magnitude := norm2 previous_centroid * norm2 new_centroid
  if magnitude = 0 then 0
  else max 0 (1 - dot_product / magnitude)

end Misir

namespace Misir

/-! ## Theorems -/

/-- Helper: addVec adds entries pointwise, with out-of-range entries read as 0. -/
theorem addVec_getD (a : List ℚ) :
    ∀ (b : List ℚ), b.length = a.length →
      ∀ i, (addVec a b).getD i 0 = a.getD i 0 + b.getD i 0 := by
  induction a with
  | nil =>
    intro b hb i
    have : b = [] := List.eq_nil_of_length_eq_zero hb
    subst this
    simp [addVec]
  | cons x xs ih =>
    intro b hb i
    cases b with
    | nil => simp at hb
    | cons y ys =>
      cases i with
      | zero => simp [addVec]
      | succ j =>
        have hys : ys.length = xs.length := by simpa using hb
        simpa [addVec] using ih ys hys j

/-- Helper: addVec keeps the accumulator length when the added vector matches. -/
theorem addVec_length (a b : List ℚ) (hb : b.length = a.length) :
    (addVec a b).length = a.length := by
  simp [addVec, hb]

/-- Helper: folding addVec over a list of equal-length vectors preserves the
accumulator length. -/
theorem foldl_addVec_length :
    ∀ (L : List (List ℚ)) (acc : List ℚ), (∀ v ∈ L, v.length = acc.length) →
      (L.foldl addVec acc).length = acc.length := by
  intro L
  induction L with
  | nil => intro acc _; rfl
  | cons v vs ih =>
    intro acc hlen
    have hv : v.length = acc.length := hlen v (List.mem_cons_self v vs)
    have hacc : (addVec acc v).length = acc.length := addVec_length acc v hv
    have hrest : ∀ w ∈ vs, w.length = (addVec acc v).length := by
      intro w hw
      rw [hacc]
      exact hlen w (List.mem_cons_of_mem v hw)
    calc ((v :: vs).foldl addVec acc).length
        = (vs.foldl addVec (addVec acc v)).length := rfl
      _ = (addVec acc v).length := ih (addVec acc v) hrest
      _ = acc.length := hacc

/-- Helper: each entry of the fold of addVec is the accumulator entry plus the
sum of the corresponding entries of the vectors. -/
theorem foldl_addVec_getD :
    ∀ (L : List (List ℚ)) (acc : List ℚ), (∀ v ∈ L, v.length = acc.length) →
      ∀ i, (L.foldl addVec acc).getD i 0 =
        acc.getD i 0 + (L.map (fun v => v.getD i 0)).sum := by
  intro L
  induction L with
  | nil => intro acc _ i; simp
  | cons v vs ih =>
    intro acc hlen i
    have hv : v.length = acc.length := hlen v (List.mem_cons_self v vs)
    have hacc : (addVec acc v).length = acc.length := addVec_length acc v hv
    have hrest : ∀ w ∈ vs, w.length = (addVec acc v).length := by
      intro w hw
      rw [hacc]
      exact hlen w (List.mem_cons_of_mem v hw)
    have step : ((v :: vs).foldl addVec acc) = vs.foldl addVec (addVec acc v) := rfl
    rw [step, ih (addVec acc v) hrest i, addVec_getD acc v hv i]
    simp [add_assoc]

/-- C1: a drift-logging decision made through SubspaceAnalyticsService constructed
with default arguments does NOT use the configured DRIFT_THRESHOLD: line 34 of
subspace_analytics.py overwrites the value computed on line 33, leaving the
threshold None, so should_log_drift raises TypeError instead of comparing the
drift against 0.05. -/
theorem default_drift_threshold_is_none :
    analytics_drift_threshold none = none ∧
    should_log_drift (analytics_drift_threshold none) (1 / 10) = none ∧
    should_log_drift (some DRIFT_THRESHOLD) (1 / 10) = some true := by
  refine ⟨rfl, rfl, ?_⟩
  simp [should_log_drift, DRIFT_THRESHOLD]
  norm_num

/-- C8: the updated confidence equals the EMA value (1 - rate) * current +
rate * coherence clamped to [0, 1], hence it always lies in [0, 1]; the default
learning rate constant is 0.05. -/
theorem update_confidence_clamped_bounds (current batch_coherence rate : ℚ) :
    update_confidence current batch_coherence rate =
      max 0 (min 1 ((1 - rate) * current + rate * batch_coherence)) ∧
    0 ≤ update_confidence current batch_coherence rate ∧
    update_confidence current batch_coherence rate ≤ 1 ∧
    CONFIDENCE_LEARNING_RATE = 5 / 100 := by
  refine ⟨rfl, le_max_left 0 _, ?_, rfl⟩
  exact max_le (by norm_num) (min_le_left 1 _)

/-- C9 counterexample: with the default rates (decay 0.1, floor 0.01) a stored
weight of 0.00995 is below the floor, its decayed-and-floored value 0.01 differs
from it by only 0.00005 <= 0.0001, so the update is skipped and the weight both
fails to be replaced by max(w * (1 - rate), floor) and stays below the floor. -/
theorem decay_skips_update_near_floor :
    decay_marker_weight MARKER_DECAY_RATE MARKER_MIN_WEIGHT (199 / 20000) = 199 / 20000 ∧
    decay_marker_weight MARKER_DECAY_RATE MARKER_MIN_WEIGHT (199 / 20000) ≠
      max ((199 / 20000) * (1 - MARKER_DECAY_RATE)) MARKER_MIN_WEIGHT ∧
    decay_marker_weight MARKER_DECAY_RATE MARKER_MIN_WEIGHT (199 / 20000) <
      MARKER_MIN_WEIGHT := by
  refine ⟨?_, ?_, ?_⟩ <;>
    simp only [decay_marker_weight, MARKER_DECAY_RATE, MARKER_MIN_WEIGHT] <;>
    norm_num [abs_of_pos]

/-- C9 amended: one decay application replaces the weight by
max(w * (1 - decay_rate), min_weight) only when that value differs from the
current weight by more than 0.0001, and otherwise leaves it unchanged;
consequently every link weight that starts at or above min_weight remains at or
above min_weight after any number of decay operations. -/
theorem decay_preserves_weight_floor (decay_rate min_weight w : ℚ)
    (h : min_weight ≤ w) (n : ℕ) :
    min_weight ≤ (decay_marker_weight decay_rate min_weight)^[n] w := by
  induction n generalizing w with
  | zero => simpa using h
  | succ k ih =>
    rw [Function.iterate_succ_apply]
    apply ih
    unfold decay_marker_weight
    dsimp only
    split
    · exact le_max_right _ _
    · exact h

/-- C5 counterexample: for the two unit vectors (1,0) and (0,1) the repair pass
persists the plain mean (1/2, 1/2), whose squared L2 norm is 1/2, not 1 — the
persisted centroid is not renormalized and is not unit-L2. -/
theorem repair_centroid_not_renormalized :
    repair_pass_persisted_centroid [[1, 0], [0, 1]] = some [1 / 2, 1 / 2] ∧
    normSq [1 / 2, 1 / 2] = 1 / 2 ∧ normSq [1 / 2, 1 / 2] ≠ 1 := by
  refine ⟨?_, by norm_num [normSq], by norm_num [normSq]⟩
  simp [repair_pass_persisted_centroid, mean_embedding, addVec]

/-- C5 amended: for a nonempty list of marker embeddings all of the same
positive dimension, the repair pass persists exactly the arithmetic mean of
the embeddings (entry by entry), with no renormalization applied. -/
theorem repair_centroid_is_plain_mean (vectors : List (List ℚ)) (d : ℕ)
    (hne : vectors ≠ []) (hd : 0 < d) (hlen : ∀ v ∈ vectors, v.length = d) :
    ∃ m, repair_pass_persisted_centroid vectors = some m ∧ m.length = d ∧
      ∀ i, i < d →
        m.getD i 0 = (vectors.map (fun v => v.getD i 0)).sum / (vectors.length : ℚ) := by
  cases vectors with
  | nil => exact absurd rfl hne
  | cons v vs =>
    have hv : v.length = d := hlen v (List.mem_cons_self v vs)
    have h0 : ¬ v.length = 0 := by omega
    have hfilter : (v :: vs).filter (fun w => w.length = v.length) = v :: vs := by
      rw [List.filter_eq_self]
      intro a ha
      simp [hlen a ha, hv]
    have hnz : ¬ (v :: vs).length = 0 := by simp
    have hmem : ∀ w ∈ v :: vs, w.length = (List.replicate v.length (0 : ℚ)).length := by
      intro w hw
      simp [hlen w hw, hv]
    have hacclen :
        ((v :: vs).foldl addVec (List.replicate v.length (0 : ℚ))).length = d := by
      rw [foldl_addVec_length (v :: vs) _ hmem]
      simp [hv]
    refine ⟨((v :: vs).foldl addVec (List.replicate v.length (0 : ℚ))).map
      (fun value => value / ((v :: vs).length : ℚ)), ?_, ?_, ?_⟩
    · simp only [repair_pass_persisted_centroid, mean_embedding, hfilter]
      rw [if_neg h0, if_neg hnz]
    · simpa using hacclen
    · intro i hi
      have hilt :
          i < ((v :: vs).foldl addVec (List.replicate v.length (0 : ℚ))).length := by
        rw [hacclen]; exact hi
      have hmap :
          (((v :: vs).foldl addVec (List.replicate v.length (0 : ℚ))).map
              (fun value => value / ((v :: vs).length : ℚ))).getD i 0 =
            ((v :: vs).foldl addVec (List.replicate v.length (0 : ℚ))).getD i 0 /
              ((v :: vs).length : ℚ) := by
        rw [List.getD_eq_getElem _ _ (by simpa using hilt), List.getElem_map,
          List.getD_eq_getElem _ _ hilt]
      rw [hmap, foldl_addVec_getD (v :: vs) _ hmem i]
      have hrep : (List.replicate v.length (0 : ℚ)).getD i 0 = 0 := by
        rw [List.getD_eq_getElem?_getD, List.getElem?_replicate]
        split <;> simp
      rw [hrep, zero_add]

/-- C5 amended, witness: the mean of (1,0) and (0,1) is computed entrywise as
the sum over the two vectors divided by their count. -/
theorem repair_centroid_is_plain_mean_witness :
    ([[1, 0], [0, 1]] : List (List ℚ)) ≠ [] ∧ 0 < 2 ∧
    (∀ v ∈ ([[1, 0], [0, 1]] : List (List ℚ)), v.length = 2) ∧
    ∃ m, repair_pass_persisted_centroid [[1, 0], [0, 1]] = some m ∧ m.length = 2 ∧
      ∀ i, i < 2 →
        m.getD i 0 = (([[1, 0], [0, 1]] : List (List ℚ)).map (fun v => v.getD i 0)).sum /
          ((([[1, 0], [0, 1]] : List (List ℚ)).length : ℚ)) := by
  exact ⟨by simp, by norm_num, by decide,
    repair_centroid_is_plain_mean [[1, 0], [0, 1]] 2 (by simp) (by norm_num) (by decide)⟩

/-- Helper: the norm of the unit coordinate-style vectors used as concrete
inputs evaluates to 1. -/
theorem norm2_pair_unit_fst : norm2 [1, 0] = 1 := by
  simp [norm2]

/-- Helper: the norm of the second unit coordinate vector evaluates to 1. -/
theorem norm2_pair_unit_snd : norm2 [0, 1] = 1 := by
  simp [norm2]

/-- C4 failing input: for previous centroid (1,0) and new centroid (-1,0) the
code computes drift = max(0, 1 - (-1)) = 2, outside [0,1]: the em-dash comment
in the source says clamp to [0,1] but only the lower clamp is applied, so the
claimed clipping to [0,1] (which would give 1 here) does not hold. -/
theorem drift_not_clipped_above :
    calculate_drift [1, 0] [-1, 0] = 2 ∧
    ¬ calculate_drift [1, 0] [-1, 0] ≤ 1 ∧
    max 0 (min 1 (1 - dotp [1, 0] [-1, 0] / (norm2 [1, 0] * norm2 [-1, 0]))) = 1 := by
  have hnormneg : norm2 [(-1 : ℝ), 0] = 1 := by
    simp [norm2]
  have hdot : dotp [(1 : ℝ), 0] [-1, 0] = -1 := by
    simp [dotp]
  have hcode : calculate_drift [1, 0] [-1, 0] = 2 := by
    rw [calculate_drift]
    simp only [hdot, norm2_pair_unit_fst, hnormneg]
    norm_num
  refine ⟨hcode, by rw [hcode]; norm_num, ?_⟩
  rw [hdot, norm2_pair_unit_fst, hnormneg]
  norm_num

/-- C6 counterexample: with a single candidate subspace (id 7, centroid (0,1))
and signal (1,0), the fallback returns nearest_distance = 0.0 while the actual
cosine distance from the signal to that centroid is 1. -/
theorem single_candidate_distance_is_placeholder :
    (calculate_margin_fallback [1, 0] [(7, [0, 1])] (5 / 100)).nearest_distance = 0 ∧
    cosineDistance [1, 0] [0, 1] = 1 ∧
    (calculate_margin_fallback [1, 0] [(7, [0, 1])] (5 / 100)).nearest_distance ≠
      cosineDistance [1, 0] [0, 1] := by
  have hdist : cosineDistance [(1 : ℝ), 0] [0, 1] = 1 := by
    rw [cosineDistance, norm2_pair_unit_fst, norm2_pair_unit_snd]
    simp [dotp]
  exact ⟨rfl, hdist, by rw [hdist]; norm_num [calculate_margin_fallback]⟩

/-- C6 amended: when the query returns exactly one subspace with a non-null
centroid, the fallback returns that subspace as nearest with the placeholder
nearest_distance 0.0 (not the actual cosine distance), second_distance 1.0,
margin 1.0, and updates_centroid true. -/
theorem single_candidate_result (signal : List ℝ) (s : ℕ × List ℝ) (threshold : ℝ) :
    calculate_margin_fallback signal [s] threshold =
      ⟨some s.1, 0, 1, 1, true⟩ := rfl

/-- C2: with two or more candidate subspaces the fallback orders the candidate
distances ascending — the result exposes a permutation p :: q :: tl of the
distance list with p minimal and q minimal among the rest — returns the
closest candidate as nearest, sets margin = d2 - d1, and sets updates_centroid
exactly when the margin is at least the configured threshold (whose default is
assignment_margin_threshold_default = 0.05). -/
theorem margin_fallback_orders_ascending (signal : List ℝ) (s1 s2 : ℕ × List ℝ)
    (rest : List (ℕ × List ℝ)) (threshold : ℝ) :
    ∃ p q tl,
      ((s1 :: s2 :: rest).map (fun s => (s.1, cosineDistance signal s.2))).Perm
        (p :: q :: tl) ∧
      (∀ x ∈ q :: tl, p.2 ≤ x.2) ∧
      (∀ x ∈ tl, q.2 ≤ x.2) ∧
      (calculate_margin_fallback signal (s1 :: s2 :: rest) threshold).nearest_subspace_id
        = some p.1 ∧
      (calculate_margin_fallback signal (s1 :: s2 :: rest) threshold).nearest_distance
        = p.2 ∧
      (calculate_margin_fallback signal (s1 :: s2 :: rest) threshold).second_distance
        = q.2 ∧
      (calculate_margin_fallback signal (s1 :: s2 :: rest) threshold).margin
        = q.2 - p.2 ∧
      ((calculate_margin_fallback signal (s1 :: s2 :: rest) threshold).updates_centroid
        = true ↔ threshold ≤ q.2 - p.2) := by
  classical
  set L := (s1 :: s2 :: rest).map (fun s => (s.1, cosineDistance signal s.2)) with hL
  have hlen : (List.insertionSort distLE L).length = rest.length + 2 := by
    rw [(List.perm_insertionSort distLE L).length_eq, hL]
    simp
  obtain ⟨p, q, tl, hshape⟩ :
      ∃ p q tl, List.insertionSort distLE L = p :: q :: tl := by
    have h1 : List.insertionSort distLE L ≠ [] := by
      intro h; rw [h] at hlen; simp at hlen
    obtain ⟨p, t1, hp⟩ := List.exists_cons_of_ne_nil h1
    have h2 : t1 ≠ [] := by
      intro h
      rw [hp, h] at hlen
      simp at hlen
    obtain ⟨q, tl, hq⟩ := List.exists_cons_of_ne_nil h2
    exact ⟨p, q, tl, by rw [hp, hq]⟩
  have hsorted : List.Sorted distLE (p :: q :: tl) := by
    rw [← hshape]
    exact List.sorted_insertionSort distLE L
  have hperm : L.Perm (p :: q :: tl) := by
    rw [← hshape]
    exact (List.perm_insertionSort distLE L).symm
  have hfirst : ∀ x ∈ q :: tl, p.2 ≤ x.2 :=
    fun x hx => (List.sorted_cons.mp hsorted).1 x hx
  have hsecond : ∀ x ∈ tl, q.2 ≤ x.2 :=
    fun x hx => (List.sorted_cons.mp (List.sorted_cons.mp hsorted).2).1 x hx
  have hcomp : calculate_margin_fallback signal (s1 :: s2 :: rest) threshold =
      ⟨some p.1, p.2, q.2, q.2 - p.2, decide (threshold ≤ q.2 - p.2)⟩ := by
    show (⟨some (List.insertionSort distLE L).headI.1,
        (List.insertionSort distLE L).headI.2,
        (List.insertionSort distLE L).tail.headI.2,
        (List.insertionSort distLE L).tail.headI.2 - (List.insertionSort distLE L).headI.2,
        decide (threshold ≤ (List.insertionSort distLE L).tail.headI.2 -
          (List.insertionSort distLE L).headI.2)⟩ : MarginResult) = _
    rw [hshape]
    rfl
  refine ⟨p, q, tl, hperm, hfirst, hsecond, ?_, ?_, ?_, ?_, ?_⟩ <;>
    rw [hcomp]
  simp

/-- C3: the alerts view is not computed only from the requesting user's
records.  Two stores that differ only in an artifact owned by bob change the
low_margin alert that alice receives for space 1: with only her own artifact
(margin 0.9) no alert fires, but adding an artifact owned by bob in the same
space with four zero margins drives the mean of the 5 most recent signals
below 0.3 and the alert fires — because the artifact query filters by
space_id only and never by user_id. -/
theorem alerts_low_margin_not_user_scoped :
    low_margin_alert [⟨"alice", 1, 10, [⟨some (9 / 10)⟩]⟩] 1 = false ∧
    low_margin_alert [⟨"alice", 1, 10, [⟨some (9 / 10)⟩]⟩,
      ⟨"bob", 1, 20, [⟨some 0⟩, ⟨some 0⟩, ⟨some 0⟩, ⟨some 0⟩]⟩] 1 = true ∧
    (∀ a ∈ ([⟨"alice", 1, 10, [⟨some (9 / 10)⟩]⟩] : List ArtifactRow),
      a.user_id = "alice") ∧
    ArtifactRow.user_id ⟨"bob", 1, 20, [⟨some 0⟩, ⟨some 0⟩, ⟨some 0⟩, ⟨some 0⟩]⟩ ≠
      "alice" := by
  refine ⟨?_, ?_, by decide, by decide⟩ <;>
    · simp [low_margin_alert, signalMargins, createdDesc, List.filter]
      norm_num

/-- C10: any engagement_level whose stripped lowercase form is outside the
current enum and its legacy aliases is coerced to latent; any content_source
whose stripped lowercase form is outside the current enum and its aliases is
coerced to web; and command construction never rejects these two fields: the
post-init validation result is unchanged by replacing them with any values. -/
theorem ingest_normalization_coerces_and_never_rejects :
    (∀ level : String,
      pyStripLower level ∉ (["latent", "discovered", "engaged", "saturated",
        "ambient", "active", "committed"] : List String) →
      normalize_engagement_level level = "latent") ∧
    (∀ source : String,
      pyStripLower source ∉ (["web", "pdf", "video", "chat", "note", "other",
        "ai", "document", "ebook"] : List String) →
      normalize_content_source source = "web") ∧
    (∀ (cmd : CaptureArtifactCommand) (e c : String),
      post_init_check { cmd with engagement_level := e, content_source := c } =
        post_init_check cmd) := by
  refine ⟨?_, ?_, ?_⟩
  · intro level h
    simp only [List.mem_cons, List.mem_singleton, not_or] at h
    obtain ⟨h1, h2, h3, h4, h5, h6, h7, -⟩ := h
    simp [normalize_engagement_level, h1, h2, h3, h4, h5, h6, h7]
  · intro source h
    simp only [List.mem_cons, List.mem_singleton, not_or] at h
    obtain ⟨h1, h2, h3, h4, h5, h6, h7, h8, h9, -⟩ := h
    simp [normalize_content_source, h1, h2, h3, h4, h5, h6, h7, h8, h9]
  · intro cmd e c
    rfl

/-- C10 witness: the out-of-enum values are coerced at a concrete input. -/
theorem ingest_normalization_witness :
    normalize_engagement_level "Banana" = "latent" ∧
    normalize_content_source "Banana" = "web" := by
  constructor
  · exact ingest_normalization_coerces_and_never_rejects.1 "Banana" (by decide)
  · exact ingest_normalization_coerces_and_never_rejects.2.1 "Banana" (by decide)

/-- C7 counterexample: at word_count = 200, dwell_time_ms = 180000,
scroll_depth = 0, reading_depth = 1.4 with the default constants, the code
computes expected depth 0.6 * min(1.5, 3) = 0.9 and logs a warning
(|0.9 - 1.4| = 0.5 > 0.2), while the formula of the claim gives
clamp(0.6 * 3, 0, 1.5) = 1.5 and |1.5 - 1.4| = 0.1 <= 0.2, i.e. no warning. -/
theorem reading_depth_clamp_placement_differs :
    logs_reading_depth_warning 200 180000 0 (14 / 10) = true ∧
    expected_reading_depth 200 180000 0 = 9 / 10 ∧
    spec_expected_reading_depth 200 180000 0 = 3 / 2 ∧
    ¬ (|spec_expected_reading_depth 200 180000 0 - 14 / 10| > 20 / 100) := by
  refine ⟨?_, ?_, ?_, ?_⟩ <;>
    simp only [logs_reading_depth_warning, expected_reading_depth,
      spec_expected_reading_depth, avg_wpm_default, time_weight_default,
      scroll_weight_default, ratio_max_default] <;>
    norm_num [abs_of_pos]

/-- C7 amended: for positive word_count and dwell_time_ms the monitor logs a
warning exactly when the reading depth differs by more than 0.20 from
time_weight * clamp(dwell_time_ms / expected_ms, 0, max_ratio)
+ scroll_weight * scroll_depth, with expected_ms = word_count * 60000 / avg_wpm
(the clamp applies to the raw time ratio, before the time weighting); the
monitor never rejects the capture, it only logs. -/
theorem reading_depth_warning_iff (word_count dwell_time_ms scroll_depth reading_depth : ℚ)
    (hw : 0 < word_count) (hd : 0 < dwell_time_ms) :
    logs_reading_depth_warning word_count dwell_time_ms scroll_depth reading_depth = true ↔
      |time_weight_default *
          max 0 (min ratio_max_default
            (dwell_time_ms / (word_count * 60000 / avg_wpm_default)))
        + scroll_weight_default * scroll_depth - reading_depth| > 20 / 100 := by
  have hratio : (0 : ℚ) ≤ dwell_time_ms / (word_count * 60000 / avg_wpm_default) := by
    apply div_nonneg hd.le
    apply div_nonneg (by positivity)
    norm_num [avg_wpm_default]
  have hmin : (0 : ℚ) ≤ min ratio_max_default
      (dwell_time_ms / (word_count * 60000 / avg_wpm_default)) := by
    apply le_min _ hratio
    norm_num [ratio_max_default]
  rw [logs_reading_depth_warning, if_pos ⟨hw, hd⟩, decide_eq_true_eq,
    expected_reading_depth, max_eq_right hmin]
  ring_nf

/-- C7 amended, witness: a capture of 100 words read for 15000 ms with scroll
depth 0.5 and reading depth 0.25 triggers the anomaly warning. -/
theorem reading_depth_warning_iff_witness :
    (0 : ℚ) < 100 ∧ (0 : ℚ) < 15000 ∧
    (logs_reading_depth_warning 100 15000 (1 / 2) (25 / 100) = true ↔
      |time_weight_default *
          max 0 (min ratio_max_default
            ((15000 : ℚ) / (100 * 60000 / avg_wpm_default)))
        + scroll_weight_default * (1 / 2) - 25 / 100| > 20 / 100) := by
  exact ⟨by norm_num, by norm_num,
    reading_depth_warning_iff 100 15000 (1 / 2) (25 / 100) (by norm_num) (by norm_num)⟩

/-- C9 amended, witness: starting from weight 0.5 with the default rates, three
decay applications keep the weight at or above the 0.01 floor. -/
theorem decay_preserves_weight_floor_witness :
    MARKER_MIN_WEIGHT ≤ (1 / 2 : ℚ) ∧
    MARKER_MIN_WEIGHT ≤ (decay_marker_weight MARKER_DECAY_RATE MARKER_MIN_WEIGHT)^[3] (1 / 2) := by
  constructor
  · norm_num [MARKER_MIN_WEIGHT]
  · exact decay_preserves_weight_floor MARKER_DECAY_RATE MARKER_MIN_WEIGHT (1 / 2)
      (by norm_num [MARKER_MIN_WEIGHT]) 3

end Misir
